import Mathlib

/-!
Formal model of the planetary-system scene graph in
`src/planet/planetarysystem.cpp` of `procedural_planetary_system`.

The C++ source builds a tree of `Planet` nodes (a sun, eight planets, one
moon) from a static catalog, advances it per frame, and extracts orbit-ring
transforms.  Floating-point values are modelled as real numbers; `glm`
matrices as 4×4 real matrices; heap pointers to render payloads as indices
into the returned payload list; the `std::mt19937` phase source as an
injected function `rand : ℕ → ℝ` giving the successive draws (the spec
requires the random source to be injectable).

The `Planet` class body (constructor internals, `updateCTM`,
`getTranslateMat`, `getOrientMat`) is not part of the repository snapshot;
those definitions are modelled from the spec and marked as such.
-/

namespace PlanetarySys

noncomputable section

/-- 4×4 real matrix, modelling `glm::mat4`. -/
abbrev M4 := Matrix (Fin 4) (Fin 4) ℝ

/-- Triple of reals, modelling `glm::vec3`. -/
abbrev V3 := ℝ × ℝ × ℝ

/-- Catalog record, from `struct SolarSystemPlanet` in planetarysystem.cpp. -/
structure SolarSystemPlanet where
  texture_fname : String
  diameter : ℝ
  rotational_velocity : ℝ
  orbital_radius : ℝ
  orbital_period : ℝ
  orbital_inclination : ℝ

/-- The `Sun` record from the source catalog. -/
def Sun : SolarSystemPlanet :=
  { texture_fname := "resources/images/sun.jpeg"
    diameter := 1392684, rotational_velocity := 0
    orbital_radius := 0, orbital_period := 0, orbital_inclination := 0 }

/-- The `Moon` record from the source catalog. -/
def Moon : SolarSystemPlanet :=
  { texture_fname := "resources/images/moon.jpeg"
    diameter := 3475, rotational_velocity := 16.7
    orbital_radius := 0.384, orbital_period := 27.3, orbital_inclination := 5.1 }

/-- The `Planets` vector from the source catalog (Mercury … Neptune). -/
def Planets : List SolarSystemPlanet :=
  [ { texture_fname := "resources/images/mercury.jpeg"
      diameter := 4879, rotational_velocity := 10.83
      orbital_radius := 57.9, orbital_period := 88, orbital_inclination := 7.0 },
    { texture_fname := "resources/images/venus.jpeg"
      diameter := 12104, rotational_velocity := 6.52
      orbital_radius := 108.2, orbital_period := 224.7, orbital_inclination := 3.4 },
    { texture_fname := "resources/images/earth.jpeg"
      diameter := 12756, rotational_velocity := 1574
      orbital_radius := 149.6, orbital_period := 365.2, orbital_inclination := 0 },
    { texture_fname := "resources/images/mars.jpeg"
      diameter := 6792, rotational_velocity := 866
      orbital_radius := 228, orbital_period := 687, orbital_inclination := 1.8 },
    { texture_fname := "resources/images/jupiter.jpeg"
      diameter := 142984, rotational_velocity := 45583
      orbital_radius := 778.5, orbital_period := 4331, orbital_inclination := 1.3 },
    { texture_fname := "resources/images/saturn.jpeg"
      diameter := 120536, rotational_velocity := 36840
      orbital_radius := 1432, orbital_period := 10747, orbital_inclination := 2.5 },
    { texture_fname := "resources/images/uranus.jpeg"
      diameter := 51118, rotational_velocity := 14798
      orbital_radius := 2867, orbital_period := 30589, orbital_inclination := 0.8 },
    { texture_fname := "resources/images/neptune.jpeg"
      diameter := 49528, rotational_velocity := 9719
      orbital_radius := 4515, orbital_period := 59800, orbital_inclination := 1.8 } ]

/-- Base-10 logarithm, modelling `log10` on positive floats. -/
def log10 (x : ℝ) : ℝ := Real.logb 10 x

/-- `scaleDiameter` from the source: `(log10(diameter) - 3) * 0.5`. -/
def scaleDiameter (diameter : ℝ) : ℝ := (log10 diameter - 3) * 0.5

/-- `scaleOrbitalRadius` from the source: `(log10(radius) - 1.2) * 7`. -/
def scaleOrbitalRadius (radius : ℝ) : ℝ := (log10 radius - 1.2) * 7

/-- `scaleVelocity` from the source: `sqrt(v) * 10`. -/
def scaleVelocity (v : ℝ) : ℝ := Real.sqrt v * 10

/-- Degrees to radians, modelling `glm::radians`. -/
def radians (deg : ℝ) : ℝ := deg * (Real.pi / 180)

/-- Rotation matrix of `glm::rotate(glm::mat4(1), angle, axis)` for a unit
axis, by the Rodrigues formula used by glm (glm stores columns; entry
`(row, col)` here is glm's `Rotate[col][row]`). -/
def rotate4 (angle : ℝ) (a : V3) : M4 :=
  let c := Real.cos angle
  let s := Real.sin angle
  Matrix.of
    ![![c + (1-c)*a.1*a.1,         (1-c)*a.2.1*a.1 - s*a.2.2, (1-c)*a.2.2*a.1 + s*a.2.1, 0],
      ![(1-c)*a.1*a.2.1 + s*a.2.2, c + (1-c)*a.2.1*a.2.1,     (1-c)*a.2.2*a.2.1 - s*a.1, 0],
      ![(1-c)*a.1*a.2.2 - s*a.2.1, (1-c)*a.2.1*a.2.2 + s*a.1, c + (1-c)*a.2.2*a.2.2,     0],
      ![0, 0, 0, 1]]

/-- Application of a 4×4 matrix to a direction vector, modelling
`mat * glm::vec4(v, 0)` truncated back to a `vec3`. -/
def applyDir (m : M4) (v : V3) : V3 :=
  (m.mulVec ![v.1, v.2.1, v.2.2, 0] 0,
   m.mulVec ![v.1, v.2.1, v.2.2, 0] 1,
   m.mulVec ![v.1, v.2.1, v.2.2, 0] 2)

/-- `PlanetarySystem::computeAxis` from the source: exact zero test on the
inclination, otherwise rotate the vertical axis about X by the inclination
in radians. -/
def computeAxis (inclination : ℝ) : V3 :=
  open Classical in
  if inclination = 0 then (0, 1, 0)
  else applyDir (rotate4 (radians inclination) (1, 0, 0)) (0, 1, 0)

/-- Affine translation matrix by a vector, modelling `glm::translate`. -/
def translate4 (v : V3) : M4 :=
  Matrix.of
    ![![1, 0, 0, v.1],
      ![0, 1, 0, v.2.1],
      ![0, 0, 1, v.2.2],
      ![0, 0, 0, 1]]

/-- Uniform scale matrix, modelling `glm::scale(glm::vec3(s))`. -/
def scale4 (s : ℝ) : M4 :=
  Matrix.of
    ![![s, 0, 0, 0],
      ![0, s, 0, 0],
      ![0, 0, s, 0],
      ![0, 0, 0, 1]]

/-- Modelled from the spec: the axis-derived orientation matrix of a node
(`Planet::getOrientMat` is not in the repository snapshot).  Axes produced
by `computeAxis` lie in the y-z plane, `(0, cos θ, sin θ)`; the orientation
aligning the vertical with such an axis is the rotation about X whose
cosine and sine are the axis's y and z components. -/
def orient4 (a : V3) : M4 :=
  Matrix.of
    ![![1, 0, 0,      0],
      ![0, a.2.1, -a.2.2, 0],
      ![0, a.2.2, a.2.1,  0],
      ![0, 0, 0, 1]]

/-- Render primitive kinds (only the sphere is used by this subsystem). -/
inductive PrimitiveType where
  | PRIMITIVE_SPHERE
  | PRIMITIVE_CUBE
deriving DecidableEq

/-- Texture-map part of a scene material. -/
structure SceneTextureMap where
  isUsed : Bool
  repeatU : ℝ
  repeatV : ℝ
  filename : String

/-- Scene material, modelling the `SceneMaterial` fields set by the source. -/
structure SceneMaterial where
  cDiffuse : ℝ × ℝ × ℝ × ℝ
  blend : ℝ
  textureMap : SceneTextureMap

/-- Primitive part of a render shape (`{PrimitiveType, SceneMaterial}`). -/
structure ScenePrimitive where
  type : PrimitiveType
  material : SceneMaterial

/-- Render payload, modelling `RenderShapeData {primitive, ctm}`. -/
structure RenderShapeData where
  primitive : ScenePrimitive
  ctm : M4

/-- The material as set up in `generateSolarSystem` before each shape is
created: white diffuse, given blend, texture map in use with repeat 1×1. -/
def baseMaterial (blend : ℝ) (fname : String) : SceneMaterial :=
  { cDiffuse := (1, 1, 1, 0)
    blend := blend
    textureMap := { isUsed := true, repeatU := 1, repeatV := 1, filename := fname } }

/-- A freshly created render payload: sphere primitive, identity transform. -/
def mkShape (blend : ℝ) (fname : String) : RenderShapeData :=
  { primitive := { type := .PRIMITIVE_SPHERE, material := baseMaterial blend fname }
    ctm := 1 }

mutual
/-- Scene-graph node, modelling the `Planet` class.  The render payload
pointer is modelled as the payload's index in the list returned by
`generateSolarSystem`.  `spinAngle` is the implicit spin angle of spec
§4.4 (the `Planet` class body is not in the repository snapshot). -/
inductive Planet where
  | mk (scale orbitalRate spinRate phase spinAngle orbitRadius : ℝ)
       (axis : V3) (shape : ℕ) (children : PlanetList)

/-- Children sequence of a `Planet` node (`std::vector<Planet*>`). -/
inductive PlanetList where
  | nil
  | cons (p : Planet) (ps : PlanetList)
end

/-- Conversion of a children sequence to a plain list. -/
def PlanetList.toList : PlanetList → List Planet
  | .nil => []
  | .cons p ps => p :: ps.toList

/-- Conversion of a plain list to a children sequence. -/
def PlanetList.ofList : List Planet → PlanetList
  | [] => .nil
  | p :: ps => .cons p (ofList ps)

/-- Render-space radius of a node. -/
def Planet.scale : Planet → ℝ
  | .mk sc _ _ _ _ _ _ _ _ => sc

/-- Angular rate of revolution about the parent. -/
def Planet.orbitalRate : Planet → ℝ
  | .mk _ orate _ _ _ _ _ _ _ => orate

/-- Angular rate of axial rotation. -/
def Planet.spinRate : Planet → ℝ
  | .mk _ _ srate _ _ _ _ _ _ => srate

/-- Current orbital angle of a node. -/
def Planet.phase : Planet → ℝ
  | .mk _ _ _ ph _ _ _ _ _ => ph

/-- Current spin angle of a node. -/
def Planet.spinAngle : Planet → ℝ
  | .mk _ _ _ _ sa _ _ _ _ => sa

/-- Render-space distance from the parent. -/
def Planet.orbitRadius : Planet → ℝ
  | .mk _ _ _ _ _ orad _ _ _ => orad

/-- Rotation axis of a node. -/
def Planet.axis : Planet → V3
  | .mk _ _ _ _ _ _ ax _ _ => ax

/-- Render-payload handle of a node (index into the returned payload list). -/
def Planet.shape : Planet → ℕ
  | .mk _ _ _ _ _ _ _ shp _ => shp

/-- Children of a node, as a plain list. -/
def Planet.children : Planet → List Planet
  | .mk _ _ _ _ _ _ _ _ ch => ch.toList

/-- The `Planet` constructor as invoked by the source:
`Planet(scale, orbital_velocity, rotational_velocity, phase, orbit_radius,
axis, shape)`.  Modelled from the spec: the spin angle starts at 0 and the
children sequence starts empty. -/
def Planet.new (scale orbitalVel rotationalVel phase orbitRadius : ℝ)
    (axis : V3) (shape : ℕ) : Planet :=
  .mk scale orbitalVel rotationalVel phase 0 orbitRadius axis shape .nil

/-- `Planet::setChildren`: replaces the children sequence. -/
def Planet.setChildren : Planet → List Planet → Planet
  | .mk sc orate srate ph sa orad ax shp _, ch =>
      .mk sc orate srate ph sa orad ax shp (.ofList ch)

/-- The node built for catalog record `pl` at loop index `idx` in
`generateSolarSystem` (payload handle `idx + 1`; phase is the draw of the
injected random source at position `idx`). -/
def mkPlanetNode (idx : ℕ) (pl : SolarSystemPlanet) (rand : ℕ → ℝ) : Planet :=
  Planet.new (scaleDiameter pl.diameter)
             (scaleVelocity (1 / pl.orbital_period))
             (pl.rotational_velocity / pl.diameter)
             (rand idx)
             (scaleOrbitalRadius pl.orbital_radius)
             (computeAxis pl.orbital_inclination)
             (idx + 1)

/-- The planet loop of `generateSolarSystem`: one node per catalog record,
in catalog order, with successive payload handles and phase draws. -/
def buildPlanets (rand : ℕ → ℝ) : ℕ → List SolarSystemPlanet → List Planet
  | _, [] => []
  | i, pl :: rest => mkPlanetNode i pl rand :: buildPlanets rand (i+1) rest

/-- The moon node of `generateSolarSystem`: raw diameter over 20000,
raw orbital radius times 1.5 (deviating from the logarithmic scales),
payload handle `numPlanets + 1`, phase drawn after all planet phases. -/
def moonNode (numPlanets : ℕ) (rand : ℕ → ℝ) : Planet :=
  Planet.new (Moon.diameter / 20000)
             (scaleVelocity (1 / Moon.orbital_period))
             (Moon.rotational_velocity / Moon.diameter)
             (rand numPlanets)
             (Moon.orbital_radius * 1.5)
             (computeAxis Moon.orbital_inclination)
             (numPlanets + 1)

/-- The `sun_children[2]->setChildren({moon})` step: replace the children
of the third element.  With fewer than three elements the C++ index is out
of bounds (undefined behaviour); modelled as leaving the list unchanged,
an arm no theorem relies on. -/
def attachMoonAt2 (moon : Planet) : List Planet → List Planet
  | p0 :: p1 :: p2 :: rest => p0 :: p1 :: p2.setChildren [moon] :: rest
  | l => l

/-- `PlanetarySystem::generateSolarSystem`, generalized over the orbiting
catalog (the source iterates the global `Planets` vector): returns the
tree root and the payloads in creation order (sun, planets in catalog
order, moon). -/
def generateSolarSystem (planets : List SolarSystemPlanet) (rand : ℕ → ℝ) :
    Planet × List RenderShapeData :=
  let sunChildren := buildPlanets rand 0 planets
  let moon := moonNode planets.length rand
  let sun :=
    (Planet.new (scaleDiameter Sun.diameter) 0 0 0 0 (0, 1, 0) 0).setChildren
      (attachMoonAt2 moon sunChildren)
  let data :=
    mkShape 1 Sun.texture_fname ::
      (planets.map fun pl => mkShape 0.5 pl.texture_fname) ++
      [mkShape 0.5 Moon.texture_fname]
  (sun, data)

mutual
/-- Number of nodes of a subtree. -/
def Planet.size : Planet → ℕ
  | .mk _ _ _ _ _ _ _ _ ch => 1 + sizePL ch

/-- Number of nodes of a forest. -/
def sizePL : PlanetList → ℕ
  | .nil => 0
  | .cons p ps => p.size + sizePL ps
end

mutual
/-- Pre-order node list of a subtree. -/
def Planet.nodes : Planet → List Planet
  | .mk sc orate srate ph sa orad ax shp ch =>
      .mk sc orate srate ph sa orad ax shp ch :: nodesPL ch

/-- Pre-order node list of a forest. -/
def nodesPL : PlanetList → List Planet
  | .nil => []
  | .cons p ps => p.nodes ++ nodesPL ps
end

mutual
/-- Modelled from the spec: `Planet::updateCTM(deltaTime)` (the `Planet`
class body is not in the repository snapshot).  Spec §4.4: each node's
phase advances by `orbitalRate × deltaTime`, the spin angle likewise with
`selfSpinRate`, recursively over the whole subtree; the phase is not
wrapped. -/
def Planet.updateCTM (dt : ℝ) : Planet → Planet
  | .mk sc orate srate ph sa orad ax shp ch =>
      .mk sc orate srate (ph + orate * dt) (sa + srate * dt) orad ax shp
        (updatePL dt ch)

/-- `updateCTM` mapped over a forest. -/
def updatePL (dt : ℝ) : PlanetList → PlanetList
  | .nil => .nil
  | .cons p ps => .cons (p.updateCTM dt) (updatePL dt ps)
end

/-- `PlanetarySystem::update(deltaTime)`: delegates to the root's
`updateCTM`. -/
def update (dt : ℝ) (root : Planet) : Planet := root.updateCTM dt

/-- Modelled from the spec: `Planet::getTranslateMat`, the translation
component of the node's current transform — the translation along the
orbit plane defined by the node's axis, at distance `orbitRadius` and the
current `phase` (spec §4.4; the `Planet` class body is not in the
repository snapshot). -/
def getTranslateMat (p : Planet) : M4 :=
  translate4 (applyDir (orient4 p.axis)
    (p.orbitRadius * Real.cos p.phase, 0, p.orbitRadius * Real.sin p.phase))

/-- Modelled from the spec: `Planet::getOrientMat`, the node's
axis-derived orientation matrix. -/
def getOrientMat (p : Planet) : M4 := orient4 p.axis

/-- Modelled from the spec (§4.4): a node's local transform — orbit
translation, composed with the spin rotation about the axis, composed
with the uniform scale. -/
def localTransform (p : Planet) : M4 :=
  getTranslateMat p * rotate4 p.spinAngle p.axis * scale4 p.scale

mutual
/-- Modelled from the spec (§4.4): the derived effective transforms of a
subtree, in pre-order — each node's effective transform is its parent's
effective transform composed with its own local transform. -/
def ctms (parentCtm : M4) : Planet → List M4
  | .mk sc orate srate ph sa orad ax shp ch =>
      parentCtm * localTransform (.mk sc orate srate ph sa orad ax shp ch) ::
        ctmsPL (parentCtm * localTransform (.mk sc orate srate ph sa orad ax shp ch)) ch

/-- Derived effective transforms of a forest. -/
def ctmsPL (parentCtm : M4) : PlanetList → List M4
  | .nil => []
  | .cons p ps => ctms parentCtm p ++ ctmsPL parentCtm ps
end

mutual
/-- `getOrbitCtmsHelper` from the source, written functionally: the parent
pointer is passed explicitly (the `setParent` calls in the source make it
mirror the child lists); a non-root node contributes
`parent.getTranslateMat() * scale(2 * orbitRadius) * orient * mat4(1)`,
then the children are visited in order. -/
def getOrbitCtmsHelper (parent : Option Planet) : Planet → List M4
  | .mk sc orate srate ph sa orad ax shp ch =>
      (match parent with
       | none => []
       | some par =>
           [getTranslateMat par * scale4 (2 * orad) *
              getOrientMat (.mk sc orate srate ph sa orad ax shp ch) * 1]) ++
      getOrbitCtmsPL (.mk sc orate srate ph sa orad ax shp ch) ch

/-- The recursion of `getOrbitCtmsHelper` over a children sequence. -/
def getOrbitCtmsPL (par : Planet) : PlanetList → List M4
  | .nil => []
  | .cons p ps => getOrbitCtmsHelper (some par) p ++ getOrbitCtmsPL par ps
end

/-- `PlanetarySystem::getOrbitCtms`: runs the helper from the root, whose
parent pointer is null. -/
def getOrbitCtms (root : Planet) : List M4 := getOrbitCtmsHelper none root

mutual
/-- Pre-order list of (parent, node) pairs of a subtree: the specification
of the traversal order of `getOrbitCtmsHelper`, defined independently of
it. -/
def preorderWithParent (parent : Option Planet) : Planet → List (Option Planet × Planet)
  | .mk sc orate srate ph sa orad ax shp ch =>
      (parent, .mk sc orate srate ph sa orad ax shp ch) ::
        preorderWithParentPL (.mk sc orate srate ph sa orad ax shp ch) ch

/-- Pre-order (parent, node) pairs of a forest. -/
def preorderWithParentPL (par : Planet) : PlanetList → List (Option Planet × Planet)
  | .nil => []
  | .cons p ps => preorderWithParent (some par) p ++ preorderWithParentPL par ps
end

/-- The orbit transform a non-root node contributes, per the source. -/
def orbitEntry (par : Planet) (p : Planet) : M4 :=
  getTranslateMat par * scale4 (2 * p.orbitRadius) * getOrientMat p * 1

mutual
/-- `deletePlanet` from the source, as the sequence of released node
handles: all children subtrees are released first (in order), then the
node itself. -/
def deletePlanet : Planet → List ℕ
  | .mk _ _ _ _ _ _ _ shp ch => deletePL ch ++ [shp]

/-- `deletePlanet` mapped over a children sequence. -/
def deletePL : PlanetList → List ℕ
  | .nil => []
  | .cons p ps => deletePlanet p ++ deletePL ps
end

/-- `PlanetarySystem::~PlanetarySystem()`: releases the tree only when the
root is non-null, as the sequence of released node handles. -/
def destructorReleases : Option Planet → List ℕ
  | none => []
  | some root => deletePlanet root

/-- Modelled from the spec: the `m_root` member of a `PlanetarySystem` on
which `generateSolarSystem` was never invoked is still null (the class
declaration is not in the repository snapshot; the destructor's null test
in the source presupposes it). -/
def initialRoot : Option Planet := none

/-- Pre-order list of the phases of a subtree. -/
def phases (p : Planet) : List ℝ := p.nodes.map Planet.phase

/-- Pre-order list of the spin angles of a subtree. -/
def spinAngles (p : Planet) : List ℝ := p.nodes.map Planet.spinAngle

/-- Children of a node, as a children sequence. -/
def Planet.childrenPL : Planet → PlanetList
  | .mk _ _ _ _ _ _ _ _ ch => ch

/-- Two nodes agreeing on every field except the children sequence
(`setChildren` establishes exactly this relation). -/
def sameButChildren (p q : Planet) : Prop :=
  p.scale = q.scale ∧ p.orbitalRate = q.orbitalRate ∧ p.spinRate = q.spinRate ∧
  p.phase = q.phase ∧ p.spinAngle = q.spinAngle ∧ p.orbitRadius = q.orbitRadius ∧
  p.axis = q.axis ∧ p.shape = q.shape

end

/-! Basic simp lemmas about the node projections and list conversions. -/

@[simp] theorem toList_ofList (l : List Planet) : (PlanetList.ofList l).toList = l := by
  induction l with
  | nil => rfl
  | cons p ps ih => simp [PlanetList.ofList, PlanetList.toList, ih]

@[simp] theorem scale_mk (sc orate srate ph sa orad : ℝ) (ax : V3) (shp : ℕ)
    (ch : PlanetList) : (Planet.mk sc orate srate ph sa orad ax shp ch).scale = sc := rfl

@[simp] theorem orbitalRate_mk (sc orate srate ph sa orad : ℝ) (ax : V3) (shp : ℕ)
    (ch : PlanetList) : (Planet.mk sc orate srate ph sa orad ax shp ch).orbitalRate = orate := rfl

@[simp] theorem spinRate_mk (sc orate srate ph sa orad : ℝ) (ax : V3) (shp : ℕ)
    (ch : PlanetList) : (Planet.mk sc orate srate ph sa orad ax shp ch).spinRate = srate := rfl

@[simp] theorem phase_mk (sc orate srate ph sa orad : ℝ) (ax : V3) (shp : ℕ)
    (ch : PlanetList) : (Planet.mk sc orate srate ph sa orad ax shp ch).phase = ph := rfl

@[simp] theorem spinAngle_mk (sc orate srate ph sa orad : ℝ) (ax : V3) (shp : ℕ)
    (ch : PlanetList) : (Planet.mk sc orate srate ph sa orad ax shp ch).spinAngle = sa := rfl

@[simp] theorem orbitRadius_mk (sc orate srate ph sa orad : ℝ) (ax : V3) (shp : ℕ)
    (ch : PlanetList) : (Planet.mk sc orate srate ph sa orad ax shp ch).orbitRadius = orad := rfl

@[simp] theorem axis_mk (sc orate srate ph sa orad : ℝ) (ax : V3) (shp : ℕ)
    (ch : PlanetList) : (Planet.mk sc orate srate ph sa orad ax shp ch).axis = ax := rfl

@[simp] theorem shape_mk (sc orate srate ph sa orad : ℝ) (ax : V3) (shp : ℕ)
    (ch : PlanetList) : (Planet.mk sc orate srate ph sa orad ax shp ch).shape = shp := rfl

@[simp] theorem children_mk (sc orate srate ph sa orad : ℝ) (ax : V3) (shp : ℕ)
    (ch : PlanetList) : (Planet.mk sc orate srate ph sa orad ax shp ch).children = ch.toList := rfl

@[simp] theorem childrenPL_mk (sc orate srate ph sa orad : ℝ) (ax : V3) (shp : ℕ)
    (ch : PlanetList) : (Planet.mk sc orate srate ph sa orad ax shp ch).childrenPL = ch := rfl

theorem setChildren_sameButChildren (p : Planet) (ch : List Planet) :
    sameButChildren (p.setChildren ch) p := by
  cases p with
  | mk sc orate srate ph sa orad ax shp c =>
      simp [Planet.setChildren, sameButChildren]

theorem sameButChildren.refl (p : Planet) : sameButChildren p p := by
  simp [sameButChildren]

/-! Arithmetic facts about the scaling functions. -/

/-- log10 of 1000 is 3. -/
theorem log10_1000 : log10 1000 = 3 := by
  rw [log10, show (1000 : ℝ) = 10 ^ (3 : ℕ) by norm_num, Real.logb_pow,
    Real.logb_self_eq_one] <;> norm_num

/-- `scaleOrbitalRadius` is positive on radii of at least 16 (because
`10 ^ 1.2 < 16`); every orbiting-body radius in the catalog is ≥ 16. -/
theorem scaleOrbitalRadius_pos (r : ℝ) (h : 16 ≤ r) : 0 < scaleOrbitalRadius r := by
  have hlog : (1.2 : ℝ) < Real.logb 10 r := by
    rw [Real.lt_logb_iff_rpow_lt (by norm_num) (by linarith)]
    calc (10:ℝ) ^ (1.2:ℝ) < 16 := by
          have h5 : ((10:ℝ) ^ (1.2:ℝ)) ^ (5:ℕ) < 16 ^ (5:ℕ) := by
            rw [← Real.rpow_natCast ((10:ℝ) ^ (1.2:ℝ)) 5, ← Real.rpow_mul (by norm_num),
                show (1.2:ℝ) * (5:ℕ) = ((6:ℕ):ℝ) by norm_num, Real.rpow_natCast]
            norm_num
          exact lt_of_pow_lt_pow_left₀ 5 (by norm_num) h5
      _ ≤ r := h
  have : (0:ℝ) < Real.logb 10 r - 1.2 := by linarith
  unfold scaleOrbitalRadius log10
  linarith

/-- `scaleVelocity` is never negative. -/
theorem scaleVelocity_nonneg (v : ℝ) : 0 ≤ scaleVelocity v := by
  unfold scaleVelocity
  positivity

/-- C10: destroying a `PlanetarySystem` on which the build operation was
never invoked (root still null) performs no node release at all: the
destructor's null test makes teardown-before-build a no-op. -/
theorem destructor_before_build_noop : destructorReleases initialRoot = [] := rfl

/-- C6: `computeAxis 0` is exactly the canonical vertical axis (the zero
test is an exact equality test); for a non-zero inclination the result is
the vertical axis rotated about X by the inclination in radians, namely
`(0, cos θ, sin θ)` for `θ = radians inc`, and it has exactly unit length. -/
theorem computeAxis_spec (inc : ℝ) (h : inc ≠ 0) :
    computeAxis 0 = (0, 1, 0) ∧
    computeAxis inc = applyDir (rotate4 (radians inc) (1, 0, 0)) (0, 1, 0) ∧
    computeAxis inc = (0, Real.cos (radians inc), Real.sin (radians inc)) ∧
    (computeAxis inc).1 ^ 2 + (computeAxis inc).2.1 ^ 2 + (computeAxis inc).2.2 ^ 2 = 1 := by
  have h0 : computeAxis 0 = (0, 1, 0) := by simp [computeAxis]
  have hdef : computeAxis inc = applyDir (rotate4 (radians inc) (1, 0, 0)) (0, 1, 0) := by
    simp [computeAxis, h]
  have hrot : computeAxis inc = (0, Real.cos (radians inc), Real.sin (radians inc)) := by
    rw [hdef]
    simp [applyDir, rotate4, Matrix.mulVec, Matrix.dotProduct, Fin.sum_univ_four]
  refine ⟨h0, hdef, hrot, ?_⟩
  rw [hrot]
  simp [Real.cos_sq_add_sin_sq (radians inc)]

/-- Witness for C6 at inclination 90. -/
theorem computeAxis_spec_witness :
    (90:ℝ) ≠ 0 ∧
    (computeAxis 0 = (0, 1, 0) ∧
     computeAxis 90 = applyDir (rotate4 (radians 90) (1, 0, 0)) (0, 1, 0) ∧
     computeAxis 90 = (0, Real.cos (radians 90), Real.sin (radians 90)) ∧
     (computeAxis 90).1 ^ 2 + (computeAxis 90).2.1 ^ 2 + (computeAxis 90).2.2 ^ 2 = 1) :=
  ⟨by norm_num, computeAxis_spec 90 (by norm_num)⟩

/-! Per-frame update: `advance(0)` is the identity and phase accumulation
is additive.  Proved by mutual structural recursion over the tree. -/

mutual
theorem updateCTM_zero : ∀ t : Planet, Planet.updateCTM 0 t = t
  | .mk sc orate srate ph sa orad ax shp ch => by
      simp [Planet.updateCTM, updatePL_zero ch]

theorem updatePL_zero : ∀ l : PlanetList, updatePL 0 l = l
  | .nil => rfl
  | .cons p ps => by
      simp [updatePL, updateCTM_zero p, updatePL_zero ps]
end

mutual
theorem updateCTM_add (a b : ℝ) :
    ∀ t : Planet, Planet.updateCTM b (Planet.updateCTM a t) = Planet.updateCTM (a + b) t
  | .mk sc orate srate ph sa orad ax shp ch => by
      simp [Planet.updateCTM, updatePL_add a b ch]
      constructor <;> ring

theorem updatePL_add (a b : ℝ) :
    ∀ l : PlanetList, updatePL b (updatePL a l) = updatePL (a + b) l
  | .nil => rfl
  | .cons p ps => by
      simp [updatePL, updateCTM_add a b p, updatePL_add a b ps]
end

/-- C4: on any tree (in particular a built tree), `advance(0)` leaves every
node's phase, spin angle and derived transform unchanged (indeed the whole
observable state), and advancing by `a` then `b` yields the same per-node
phases as a single advance by `a + b`, for non-negative `a`, `b`. -/
theorem advance_spec (t : Planet) (a b : ℝ) (_ha : 0 ≤ a) (_hb : 0 ≤ b) :
    update 0 t = t ∧
    phases (update 0 t) = phases t ∧
    spinAngles (update 0 t) = spinAngles t ∧
    ctms 1 (update 0 t) = ctms 1 t ∧
    phases (update b (update a t)) = phases (update (a + b) t) := by
  refine ⟨updateCTM_zero t, ?_, ?_, ?_, ?_⟩
  · rw [update, updateCTM_zero t]
  · rw [update, updateCTM_zero t]
  · rw [update, updateCTM_zero t]
  · rw [update, update, update, updateCTM_add a b t]

/-- Witness for C4 on the built tree with all-zero phase draws, a = 1, b = 2. -/
theorem advance_spec_witness :
    (0:ℝ) ≤ 1 ∧ (0:ℝ) ≤ 2 ∧
    (update 0 (generateSolarSystem Planets fun _ => 0).1 = (generateSolarSystem Planets fun _ => 0).1 ∧
     phases (update 0 (generateSolarSystem Planets fun _ => 0).1) = phases (generateSolarSystem Planets fun _ => 0).1 ∧
     spinAngles (update 0 (generateSolarSystem Planets fun _ => 0).1) = spinAngles (generateSolarSystem Planets fun _ => 0).1 ∧
     ctms 1 (update 0 (generateSolarSystem Planets fun _ => 0).1) = ctms 1 (generateSolarSystem Planets fun _ => 0).1 ∧
     phases (update 2 (update 1 (generateSolarSystem Planets fun _ => 0).1)) =
       phases (update (1 + 2) (generateSolarSystem Planets fun _ => 0).1)) :=
  ⟨by norm_num, by norm_num,
   advance_spec (generateSolarSystem Planets fun _ => 0).1 1 2 (by norm_num) (by norm_num)⟩

/-! Structure of the built tree. -/

/-- The children of the built root are the planet nodes in catalog order
with the moon attached at index 2. -/
theorem children_generate (planets : List SolarSystemPlanet) (rand : ℕ → ℝ) :
    (generateSolarSystem planets rand).1.children =
      attachMoonAt2 (moonNode planets.length rand) (buildPlanets rand 0 planets) := by
  simp [generateSolarSystem, Planet.new, Planet.setChildren]

/-- The children sequence of the built root, as a `PlanetList`. -/
theorem childrenPL_generate (planets : List SolarSystemPlanet) (rand : ℕ → ℝ) :
    (generateSolarSystem planets rand).1.childrenPL =
      .ofList (attachMoonAt2 (moonNode planets.length rand) (buildPlanets rand 0 planets)) := by
  simp [generateSolarSystem, Planet.new, Planet.setChildren]

/-- Indexing the planet loop output: the `i`-th node is built from the
`i`-th catalog record, with handle offset by the starting index. -/
theorem buildPlanets_getElem? (rand : ℕ → ℝ) :
    ∀ (l : List SolarSystemPlanet) (n i : ℕ),
      (buildPlanets rand n l)[i]? = (l[i]?).map fun pl => mkPlanetNode (n + i) pl rand
  | [], n, i => by simp [buildPlanets]
  | pl :: rest, n, 0 => by simp [buildPlanets]
  | pl :: rest, n, i + 1 => by
      simp [buildPlanets, buildPlanets_getElem? rand rest (n+1) i, Nat.add_assoc,
        Nat.add_comm 1 i]

/-- The planet loop emits one node per catalog record. -/
theorem buildPlanets_length (rand : ℕ → ℝ) :
    ∀ (l : List SolarSystemPlanet) (n : ℕ), (buildPlanets rand n l).length = l.length
  | [], _ => rfl
  | pl :: rest, n => by simp [buildPlanets, buildPlanets_length rand rest (n+1)]

/-- Attaching the moon preserves the length of the children list. -/
theorem attachMoonAt2_length (m : Planet) (l : List Planet) :
    (attachMoonAt2 m l).length = l.length := by
  match l with
  | [] => rfl
  | [p0] => rfl
  | [p0, p1] => rfl
  | p0 :: p1 :: p2 :: rest => simp [attachMoonAt2]

/-- Attaching the moon changes at most the children field of one entry. -/
theorem attachMoonAt2_getElem? (m : Planet) (l : List Planet) (i : ℕ) (c : Planet)
    (h : (attachMoonAt2 m l)[i]? = some c) :
    ∃ c', l[i]? = some c' ∧ sameButChildren c c' := by
  match l with
  | [] => exact ⟨c, h, sameButChildren.refl c⟩
  | [p0] => exact ⟨c, h, sameButChildren.refl c⟩
  | [p0, p1] => exact ⟨c, h, sameButChildren.refl c⟩
  | p0 :: p1 :: p2 :: rest =>
      match i with
      | 0 =>
          simp [attachMoonAt2] at h
          exact ⟨p0, by simp, h ▸ sameButChildren.refl p0⟩
      | 1 =>
          simp [attachMoonAt2] at h
          exact ⟨p1, by simp, h ▸ sameButChildren.refl p1⟩
      | 2 =>
          simp [attachMoonAt2] at h
          exact ⟨p2, by simp, h ▸ setChildren_sameButChildren p2 [m]⟩
      | (n + 3) =>
          simp [attachMoonAt2] at h
          exact ⟨c, by simpa using h, sameButChildren.refl c⟩

/-- C5: every orbiting-body node carries exactly the scaled parameters of
its catalog record — scale `(log10 d − 3)·0.5`, spin rate
`rotationalVelocity / diameter`, orbital rate `sqrt(1/period)·10`, orbit
radius `(log10 r − 1.2)·7`, axis `computeAxis inclination` — and
`scaleDiameter 1000 = 0`. -/
theorem planet_node_params (planets : List SolarSystemPlanet) (rand : ℕ → ℝ)
    (i : ℕ) (pl : SolarSystemPlanet) (c : Planet)
    (hpl : planets[i]? = some pl)
    (hc : ((generateSolarSystem planets rand).1.children)[i]? = some c) :
    c.scale = (log10 pl.diameter - 3) * 0.5 ∧
    c.spinRate = pl.rotational_velocity / pl.diameter ∧
    c.orbitalRate = Real.sqrt (1 / pl.orbital_period) * 10 ∧
    c.orbitRadius = (log10 pl.orbital_radius - 1.2) * 7 ∧
    c.axis = computeAxis pl.orbital_inclination ∧
    scaleDiameter 1000 = 0 := by
  rw [children_generate] at hc
  obtain ⟨c', hgot, hsame⟩ := attachMoonAt2_getElem? _ _ _ _ hc
  rw [buildPlanets_getElem? rand planets 0 i, hpl] at hgot
  simp at hgot
  obtain ⟨hsc, horate, hsrate, hph, hsa, horad, hax, hshp⟩ := hsame
  subst hgot
  refine ⟨?_, ?_, ?_, ?_, ?_, ?_⟩
  · rw [hsc]; simp [mkPlanetNode, Planet.new, scaleDiameter]
  · rw [hsrate]; simp [mkPlanetNode, Planet.new]
  · rw [horate]; simp [mkPlanetNode, Planet.new, scaleVelocity]
  · rw [horad]; simp [mkPlanetNode, Planet.new, scaleOrbitalRadius]
  · rw [hax]; simp [mkPlanetNode, Planet.new]
  · rw [scaleDiameter, log10_1000]; norm_num

/-- Witness for C5 at the first catalog record (Mercury). -/
theorem planet_node_params_witness :
    Planets[0]? = some { texture_fname := "resources/images/mercury.jpeg", diameter := 4879,
                         rotational_velocity := 10.83, orbital_radius := 57.9,
                         orbital_period := 88, orbital_inclination := 7.0 } ∧
    ((generateSolarSystem Planets fun _ => 0).1.children)[0]? =
      some (mkPlanetNode 0 { texture_fname := "resources/images/mercury.jpeg", diameter := 4879,
                             rotational_velocity := 10.83, orbital_radius := 57.9,
                             orbital_period := 88, orbital_inclination := 7.0 } fun _ => 0) ∧
    ((mkPlanetNode 0 { texture_fname := "resources/images/mercury.jpeg", diameter := 4879,
                       rotational_velocity := 10.83, orbital_radius := 57.9,
                       orbital_period := 88, orbital_inclination := 7.0 } fun _ => 0).scale
        = (log10 4879 - 3) * 0.5 ∧
     (mkPlanetNode 0 { texture_fname := "resources/images/mercury.jpeg", diameter := 4879,
                       rotational_velocity := 10.83, orbital_radius := 57.9,
                       orbital_period := 88, orbital_inclination := 7.0 } fun _ => 0).spinRate
        = 10.83 / 4879 ∧
     (mkPlanetNode 0 { texture_fname := "resources/images/mercury.jpeg", diameter := 4879,
                       rotational_velocity := 10.83, orbital_radius := 57.9,
                       orbital_period := 88, orbital_inclination := 7.0 } fun _ => 0).orbitalRate
        = Real.sqrt (1 / 88) * 10 ∧
     (mkPlanetNode 0 { texture_fname := "resources/images/mercury.jpeg", diameter := 4879,
                       rotational_velocity := 10.83, orbital_radius := 57.9,
                       orbital_period := 88, orbital_inclination := 7.0 } fun _ => 0).orbitRadius
        = (log10 57.9 - 1.2) * 7 ∧
     (mkPlanetNode 0 { texture_fname := "resources/images/mercury.jpeg", diameter := 4879,
                       rotational_velocity := 10.83, orbital_radius := 57.9,
                       orbital_period := 88, orbital_inclination := 7.0 } fun _ => 0).axis
        = computeAxis 7.0 ∧
     scaleDiameter 1000 = 0) := by
  refine ⟨by simp [Planets], ?_, ?_⟩
  · rw [children_generate]
    simp [Planets, buildPlanets, attachMoonAt2]
  · exact planet_node_params Planets (fun _ => 0) 0
      { texture_fname := "resources/images/mercury.jpeg", diameter := 4879,
        rotational_velocity := 10.83, orbital_radius := 57.9,
        orbital_period := 88, orbital_inclination := 7.0 }
      (mkPlanetNode 0
        { texture_fname := "resources/images/mercury.jpeg", diameter := 4879,
          rotational_velocity := 10.83, orbital_radius := 57.9,
          orbital_period := 88, orbital_inclination := 7.0 } fun _ => 0)
      (by simp [Planets]) (by
      rw [children_generate]; simp [Planets, buildPlanets, attachMoonAt2])

/-! Node counting. -/

/-- A node's size is one more than the size of its children forest. -/
theorem size_eq (t : Planet) : t.size = 1 + sizePL t.childrenPL := by
  cases t; rw [Planet.size]; rfl

/-- Size of a converted children list is the sum of the subtree sizes. -/
theorem sizePL_ofList (l : List Planet) :
    sizePL (.ofList l) = (l.map Planet.size).sum := by
  induction l with
  | nil => rfl
  | cons p ps ih => rw [PlanetList.ofList, sizePL, ih]; simp

/-- Every node that the planet loop creates is a leaf of size one. -/
theorem sizes_buildPlanets (rand : ℕ → ℝ) :
    ∀ (l : List SolarSystemPlanet) (n : ℕ),
      ((buildPlanets rand n l).map Planet.size).sum = l.length
  | [], _ => rfl
  | pl :: rest, n => by
      simp [buildPlanets, sizes_buildPlanets rand rest (n+1), mkPlanetNode, Planet.new,
        Planet.size, sizePL]
      omega

/-- Destructuring a list of length at least three. -/
theorem exists_cons3 {α : Type*} (l : List α) (h : 3 ≤ l.length) :
    ∃ a b c rest, l = a :: b :: c :: rest := by
  match l with
  | a :: b :: c :: rest => exact ⟨a, b, c, rest, rfl⟩
  | [] => simp at h
  | [a] => simp at h
  | [a, b] => simp at h

/-- Explicit children list of the built root for a catalog of at least
three records. -/
theorem generate_children_cons (a b c : SolarSystemPlanet)
    (rest : List SolarSystemPlanet) (rand : ℕ → ℝ) :
    (generateSolarSystem (a :: b :: c :: rest) rand).1.children =
      mkPlanetNode 0 a rand :: mkPlanetNode 1 b rand ::
      (mkPlanetNode 2 c rand).setChildren [moonNode (rest.length + 3) rand] ::
      buildPlanets rand 3 rest := by
  rw [children_generate]
  simp [buildPlanets, attachMoonAt2]

/-- Total node count of the built tree: root + one per record + moon. -/
theorem size_generate (planets : List SolarSystemPlanet) (rand : ℕ → ℝ)
    (hC : 3 ≤ planets.length) :
    (generateSolarSystem planets rand).1.size = planets.length + 2 := by
  obtain ⟨a, b, c, rest, rfl⟩ := exists_cons3 planets hC
  rw [size_eq, childrenPL_generate]
  rw [show attachMoonAt2 (moonNode (a :: b :: c :: rest).length rand)
        (buildPlanets rand 0 (a :: b :: c :: rest)) =
      mkPlanetNode 0 a rand :: mkPlanetNode 1 b rand ::
      (mkPlanetNode 2 c rand).setChildren [moonNode (rest.length + 3) rand] ::
      buildPlanets rand 3 rest by simp [buildPlanets, attachMoonAt2]]
  rw [sizePL_ofList]
  simp [mkPlanetNode, Planet.new, Planet.setChildren, Planet.size, sizePL, moonNode,
    sizes_buildPlanets rand rest 3]
  ring

/-- C2: for a catalog with `C ≥ 3` orbiting-body records the built tree has
`1 + C + 1` nodes; the root has exactly `C` children, in catalog order
(the `i`-th child carries payload handle `i + 1`); the satellite is the
sole child of the third child, and every other child of the root is a
leaf. -/
theorem tree_shape (planets : List SolarSystemPlanet) (rand : ℕ → ℝ)
    (hC : 3 ≤ planets.length) :
    (generateSolarSystem planets rand).1.size = 1 + planets.length + 1 ∧
    (generateSolarSystem planets rand).1.children.length = planets.length ∧
    (∀ i c, ((generateSolarSystem planets rand).1.children)[i]? = some c →
        c.shape = i + 1) ∧
    (∀ c, ((generateSolarSystem planets rand).1.children)[2]? = some c →
        c.children.map Planet.shape = [planets.length + 1] ∧
        ∀ q ∈ c.children, q.children = ([] : List Planet)) ∧
    (∀ i c, i ≠ 2 → ((generateSolarSystem planets rand).1.children)[i]? = some c →
        c.children = ([] : List Planet)) := by
  obtain ⟨a, b, c0, rest, rfl⟩ := exists_cons3 planets hC
  refine ⟨?_, ?_, ?_, ?_, ?_⟩
  · rw [size_generate _ rand hC]; ring
  · rw [children_generate, attachMoonAt2_length, buildPlanets_length]
  · intro i c hc
    rw [children_generate] at hc
    obtain ⟨c', hgot, hsame⟩ := attachMoonAt2_getElem? _ _ _ _ hc
    rw [buildPlanets_getElem?] at hgot
    obtain ⟨_, _, _, _, _, _, _, hshp⟩ := hsame
    rw [hshp]
    cases hpl : (a :: b :: c0 :: rest)[i]? with
    | none => rw [hpl] at hgot; simp at hgot
    | some pl =>
        rw [hpl] at hgot
        simp at hgot
        rw [← hgot]
        simp [mkPlanetNode, Planet.new]
  · intro c hc
    rw [generate_children_cons] at hc
    simp at hc
    rw [← hc]
    constructor
    · simp [Planet.setChildren, mkPlanetNode, Planet.new, moonNode, PlanetList.ofList,
        PlanetList.toList]
    · intro q hq
      simp [Planet.setChildren, mkPlanetNode, Planet.new, PlanetList.ofList,
        PlanetList.toList] at hq
      rw [hq]
      simp [moonNode, Planet.new, PlanetList.toList]
  · intro i c hi hc
    rw [generate_children_cons] at hc
    match i, hi with
    | 0, _ =>
        simp at hc
        rw [← hc]; simp [mkPlanetNode, Planet.new, PlanetList.toList]
    | 1, _ =>
        simp at hc
        rw [← hc]; simp [mkPlanetNode, Planet.new, PlanetList.toList]
    | (n + 3), _ =>
        simp [buildPlanets_getElem?] at hc
        obtain ⟨pl, _, hc⟩ := hc
        rw [← hc]; simp [mkPlanetNode, Planet.new, PlanetList.toList]

/-- Witness for C2 on the real catalog of eight planets. -/
theorem tree_shape_witness :
    3 ≤ Planets.length ∧
    ((generateSolarSystem Planets fun _ => 0).1.size = 1 + Planets.length + 1 ∧
     (generateSolarSystem Planets fun _ => 0).1.children.length = Planets.length ∧
     (∀ i c, ((generateSolarSystem Planets fun _ => 0).1.children)[i]? = some c →
         c.shape = i + 1) ∧
     (∀ c, ((generateSolarSystem Planets fun _ => 0).1.children)[2]? = some c →
         c.children.map Planet.shape = [Planets.length + 1] ∧
         ∀ q ∈ c.children, q.children = ([] : List Planet)) ∧
     (∀ i c, i ≠ 2 → ((generateSolarSystem Planets fun _ => 0).1.children)[i]? = some c →
         c.children = ([] : List Planet))) :=
  ⟨by simp [Planets], tree_shape Planets (fun _ => 0) (by simp [Planets])⟩

/-! Orbit-path extraction. -/

mutual
/-- The orbit-ctms helper is the pre-order traversal with the root's entry
skipped and every other node mapped to its orbit transform. -/
theorem getOrbitCtmsHelper_eq : ∀ (parent : Option Planet) (p : Planet),
    getOrbitCtmsHelper parent p =
      (preorderWithParent parent p).filterMap
        (fun pp => pp.1.map fun par => orbitEntry par pp.2)
  | parent, .mk sc orate srate ph sa orad ax shp ch => by
      cases parent with
      | none =>
          simp [getOrbitCtmsHelper, preorderWithParent,
            getOrbitCtmsPL_eq (Planet.mk sc orate srate ph sa orad ax shp ch) ch]
      | some par =>
          simp [getOrbitCtmsHelper, preorderWithParent, orbitEntry,
            getOrbitCtmsPL_eq (Planet.mk sc orate srate ph sa orad ax shp ch) ch]

/-- Forest version of `getOrbitCtmsHelper_eq`. -/
theorem getOrbitCtmsPL_eq : ∀ (par : Planet) (l : PlanetList),
    getOrbitCtmsPL par l =
      (preorderWithParentPL par l).filterMap
        (fun pp => pp.1.map fun p2 => orbitEntry p2 pp.2)
  | par, .nil => rfl
  | par, .cons p ps => by
      simp [getOrbitCtmsPL, preorderWithParentPL, getOrbitCtmsHelper_eq (some par) p,
        getOrbitCtmsPL_eq par ps]
end

mutual
/-- The pre-order pair list visits every node of the subtree, in pre-order. -/
theorem preorderWithParent_snd : ∀ (parent : Option Planet) (p : Planet),
    (preorderWithParent parent p).map Prod.snd = p.nodes
  | parent, .mk sc orate srate ph sa orad ax shp ch => by
      simp [preorderWithParent, Planet.nodes,
        preorderWithParentPL_snd (Planet.mk sc orate srate ph sa orad ax shp ch) ch]

/-- Forest version of `preorderWithParent_snd`. -/
theorem preorderWithParentPL_snd : ∀ (par : Planet) (l : PlanetList),
    (preorderWithParentPL par l).map Prod.snd = nodesPL l
  | par, .nil => rfl
  | par, .cons p ps => by
      simp [preorderWithParentPL, nodesPL, preorderWithParent_snd (some par) p,
        preorderWithParentPL_snd par ps]
end

mutual
/-- Called with a non-null parent, the helper emits one transform per node
of the subtree. -/
theorem getOrbitCtmsHelper_some_length : ∀ (par : Planet) (p : Planet),
    (getOrbitCtmsHelper (some par) p).length = p.size
  | par, .mk sc orate srate ph sa orad ax shp ch => by
      simp [getOrbitCtmsHelper, Planet.size,
        getOrbitCtmsPL_length (Planet.mk sc orate srate ph sa orad ax shp ch) ch]
      omega

/-- Forest version of `getOrbitCtmsHelper_some_length`. -/
theorem getOrbitCtmsPL_length : ∀ (par : Planet) (l : PlanetList),
    (getOrbitCtmsPL par l).length = sizePL l
  | par, .nil => rfl
  | par, .cons p ps => by
      simp [getOrbitCtmsPL, sizePL, getOrbitCtmsHelper_some_length par p,
        getOrbitCtmsPL_length par ps]
end

/-- C3: `getOrbitCtms` returns the pre-order sequence of orbit transforms —
one entry per non-root node (the root, whose parent pointer is null, is
skipped), each equal to the parent's current translation composed with a
uniform scale of `2 × orbitRadius` composed with the node's axis-derived
orientation — and on a built tree it returns exactly `C + 1` entries. -/
theorem orbit_ctms_spec (planets : List SolarSystemPlanet) (rand : ℕ → ℝ)
    (hC : 3 ≤ planets.length) (t : Planet) :
    getOrbitCtms t =
      (preorderWithParent none t).filterMap
        (fun pp => pp.1.map fun par =>
          getTranslateMat par * scale4 (2 * pp.2.orbitRadius) * getOrientMat pp.2 * 1) ∧
    (preorderWithParent none t).map Prod.snd = t.nodes ∧
    (getOrbitCtms t).length = t.size - 1 ∧
    (getOrbitCtms (generateSolarSystem planets rand).1).length = planets.length + 1 := by
  have hlen : ∀ u : Planet, (getOrbitCtms u).length = u.size - 1 := by
    intro u
    cases u with
    | mk sc orate srate ph sa orad ax shp ch =>
        simp [getOrbitCtms, getOrbitCtmsHelper, Planet.size,
          getOrbitCtmsPL_length (Planet.mk sc orate srate ph sa orad ax shp ch) ch]
  refine ⟨?_, preorderWithParent_snd none t, hlen t, ?_⟩
  · rw [getOrbitCtms, getOrbitCtmsHelper_eq none t]
    rfl
  · rw [hlen, size_generate planets rand hC]
    omega

/-- Witness for C3 on the built tree of the real catalog. -/
theorem orbit_ctms_spec_witness :
    3 ≤ Planets.length ∧
    (getOrbitCtms (generateSolarSystem Planets fun _ => 0).1 =
      (preorderWithParent none (generateSolarSystem Planets fun _ => 0).1).filterMap
        (fun pp => pp.1.map fun par =>
          getTranslateMat par * scale4 (2 * pp.2.orbitRadius) * getOrientMat pp.2 * 1) ∧
     (preorderWithParent none (generateSolarSystem Planets fun _ => 0).1).map Prod.snd =
       (generateSolarSystem Planets fun _ => 0).1.nodes ∧
     (getOrbitCtms (generateSolarSystem Planets fun _ => 0).1).length =
       (generateSolarSystem Planets fun _ => 0).1.size - 1 ∧
     (getOrbitCtms (generateSolarSystem Planets fun _ => 0).1).length = Planets.length + 1) :=
  ⟨by simp [Planets],
   orbit_ctms_spec Planets (fun _ => 0) (by simp [Planets])
     (generateSolarSystem Planets fun _ => 0).1⟩

/-! Teardown. -/

mutual
/-- The release sequence of a subtree is a permutation of its node handles:
every node is released, and no handle appears more often than it occurs in
the tree. -/
theorem deletePlanet_perm : ∀ t : Planet,
    (deletePlanet t).Perm (t.nodes.map Planet.shape)
  | .mk sc orate srate ph sa orad ax shp ch => by
      rw [deletePlanet, Planet.nodes]
      refine (List.perm_append_singleton shp (deletePL ch)).trans ?_
      simp [List.Perm.cons shp (deletePL_perm ch)]

/-- Forest version of `deletePlanet_perm`. -/
theorem deletePL_perm : ∀ l : PlanetList,
    (deletePL l).Perm ((nodesPL l).map Planet.shape)
  | .nil => List.Perm.refl _
  | .cons p ps => by
      rw [deletePL, nodesPL, List.map_append]
      exact (deletePlanet_perm p).append (deletePL_perm ps)
end

mutual
/-- The release sequence of any node of a tree is a subsequence of the
release sequence of the whole tree. -/
theorem deletePlanet_sublist : ∀ (t p : Planet), p ∈ t.nodes →
    (deletePlanet p).Sublist (deletePlanet t)
  | .mk sc orate srate ph sa orad ax shp ch, p, hp => by
      rw [Planet.nodes] at hp
      rw [deletePlanet]
      rcases List.mem_cons.mp hp with rfl | hmem
      · rw [deletePlanet]
      · exact (deletePL_sublist ch p hmem).trans (List.sublist_append_left _ _)

/-- Forest version of `deletePlanet_sublist`. -/
theorem deletePL_sublist : ∀ (l : PlanetList) (p : Planet), p ∈ nodesPL l →
    (deletePlanet p).Sublist (deletePL l)
  | .cons q qs, p, hp => by
      rw [nodesPL] at hp
      rw [deletePL]
      rcases List.mem_append.mp hp with hl | hr
      · exact (deletePlanet_sublist q p hl).trans (List.sublist_append_left _ _)
      · exact (deletePL_sublist qs p hr).trans (List.sublist_append_right _ _)
end

/-- Every strict descendant's handle is released strictly before the
node's own handle. -/
theorem delete_children_first (p q : Planet) (hq : q ∈ nodesPL p.childrenPL) :
    List.Sublist [q.shape, p.shape] (deletePlanet p) := by
  cases p with
  | mk sc orate srate ph sa orad ax shp ch =>
      rw [childrenPL_mk] at hq
      rw [deletePlanet]
      have hmem : q.shape ∈ deletePL ch :=
        (deletePL_perm ch).symm.subset (List.mem_map_of_mem Planet.shape hq)
      have h1 : List.Sublist [q.shape] (deletePL ch) := List.singleton_sublist.mpr hmem
      simpa using h1.append (List.Sublist.refl [shp])

/-- Membership in the pre-order forest list, via the children list. -/
theorem mem_nodesPL : ∀ (l : PlanetList) (q : Planet),
    q ∈ nodesPL l ↔ ∃ c ∈ l.toList, q ∈ c.nodes
  | .nil, q => by simp [nodesPL, PlanetList.toList]
  | .cons p ps, q => by simp [nodesPL, PlanetList.toList, mem_nodesPL ps q]

/-- The children of a node, as a list, are its children sequence. -/
theorem children_eq_toList (p : Planet) : p.children = p.childrenPL.toList := by
  cases p; rfl

/-- The handles of the built tree's nodes, in pre-order. -/
theorem nodes_shapes_generate (rand : ℕ → ℝ) :
    (generateSolarSystem Planets rand).1.nodes.map Planet.shape =
      [0, 1, 2, 3, 9, 4, 5, 6, 7, 8] := by
  simp [generateSolarSystem, Planets, Planet.new, Planet.setChildren, buildPlanets,
    attachMoonAt2, mkPlanetNode, moonNode, Planet.nodes, nodesPL, PlanetList.ofList,
    PlanetList.toList]

/-- C9: tearing down a built tree releases every node exactly once — the
release sequence is a permutation of the node handles and has no
duplicate — and all of a node's descendants are released strictly before
the node itself (post-order). -/
theorem teardown_spec (rand : ℕ → ℝ) :
    (deletePlanet (generateSolarSystem Planets rand).1).Perm
      ((generateSolarSystem Planets rand).1.nodes.map Planet.shape) ∧
    (deletePlanet (generateSolarSystem Planets rand).1).Nodup ∧
    ∀ p ∈ (generateSolarSystem Planets rand).1.nodes, ∀ c ∈ p.children, ∀ q ∈ c.nodes,
      List.Sublist [q.shape, p.shape] (deletePlanet (generateSolarSystem Planets rand).1) := by
  refine ⟨deletePlanet_perm _, ?_, ?_⟩
  · refine (deletePlanet_perm _).nodup_iff.mpr ?_
    rw [nodes_shapes_generate]
    decide
  · intro p hp c hc q hq
    have hq' : q ∈ nodesPL p.childrenPL :=
      (mem_nodesPL p.childrenPL q).mpr ⟨c, by rw [← children_eq_toList]; exact hc, hq⟩
    exact (delete_children_first p q hq').trans (deletePlanet_sublist _ p hp)

/-! Orbit-radius and phase invariants. -/

theorem updateCTM_orbitRadius (dt : ℝ) (t : Planet) :
    (Planet.updateCTM dt t).orbitRadius = t.orbitRadius := by
  cases t; simp [Planet.updateCTM]

theorem updateCTM_phase (dt : ℝ) (t : Planet) :
    (Planet.updateCTM dt t).phase = t.phase + t.orbitalRate * dt := by
  cases t; simp [Planet.updateCTM]

theorem updateCTM_orbitalRate (dt : ℝ) (t : Planet) :
    (Planet.updateCTM dt t).orbitalRate = t.orbitalRate := by
  cases t; simp [Planet.updateCTM]

theorem toList_updatePL (dt : ℝ) : ∀ l : PlanetList,
    (updatePL dt l).toList = l.toList.map (Planet.updateCTM dt)
  | .nil => rfl
  | .cons p ps => by
      simp [updatePL, PlanetList.toList, toList_updatePL dt ps]

theorem updateCTM_children (dt : ℝ) (t : Planet) :
    (Planet.updateCTM dt t).children = t.children.map (Planet.updateCTM dt) := by
  cases t with
  | mk sc orate srate ph sa orad ax shp ch =>
      simp [Planet.updateCTM, toList_updatePL]

mutual
/-- Advancing maps the pre-order node list node-wise. -/
theorem nodes_updateCTM (dt : ℝ) : ∀ t : Planet,
    (Planet.updateCTM dt t).nodes = t.nodes.map (Planet.updateCTM dt)
  | .mk sc orate srate ph sa orad ax shp ch => by
      simp [Planet.updateCTM, Planet.nodes, nodesPL_updatePL dt ch]

/-- Forest version of `nodes_updateCTM`. -/
theorem nodesPL_updatePL (dt : ℝ) : ∀ l : PlanetList,
    nodesPL (updatePL dt l) = (nodesPL l).map (Planet.updateCTM dt)
  | .nil => rfl
  | .cons p ps => by
      simp [updatePL, nodesPL, nodes_updateCTM dt p, nodesPL_updatePL dt ps]
end

/-- Every subtree rooted at a planet-loop leaf satisfies the non-root node
invariant (positive orbit radius, phase in range, non-negative rate). -/
theorem leaf_node_invariant (i : ℕ) (pl : SolarSystemPlanet) (rand : ℕ → ℝ)
    (h16 : 16 ≤ pl.orbital_radius) (hph : rand i ∈ Set.Ico 0 (2 * Real.pi)) :
    ∀ q ∈ (mkPlanetNode i pl rand).nodes,
      0 < q.orbitRadius ∧ q.phase ∈ Set.Ico 0 (2 * Real.pi) ∧ 0 ≤ q.orbitalRate := by
  intro q hq
  simp [mkPlanetNode, Planet.new, Planet.nodes, nodesPL, PlanetList.toList] at hq
  subst hq
  refine ⟨?_, ?_, ?_⟩
  · simp [mkPlanetNode, Planet.new]
    exact scaleOrbitalRadius_pos _ h16
  · simpa [mkPlanetNode, Planet.new] using hph
  · simp [mkPlanetNode, Planet.new]
    exact scaleVelocity_nonneg _

/-- The subtree rooted at the moon's host also satisfies the non-root
invariant: the host is a planet-loop node and the moon's orbit radius is
the raw catalog radius times 1.5. -/
theorem host_node_invariant (i n : ℕ) (pl : SolarSystemPlanet) (rand : ℕ → ℝ)
    (h16 : 16 ≤ pl.orbital_radius) (hph : rand i ∈ Set.Ico 0 (2 * Real.pi))
    (hphn : rand n ∈ Set.Ico 0 (2 * Real.pi)) :
    ∀ q ∈ ((mkPlanetNode i pl rand).setChildren [moonNode n rand]).nodes,
      0 < q.orbitRadius ∧ q.phase ∈ Set.Ico 0 (2 * Real.pi) ∧ 0 ≤ q.orbitalRate := by
  intro q hq
  simp [mkPlanetNode, moonNode, Planet.new, Planet.setChildren, Planet.nodes, nodesPL,
    PlanetList.toList, PlanetList.ofList] at hq
  rcases hq with rfl | rfl
  · refine ⟨?_, ?_, ?_⟩
    · simp
      exact scaleOrbitalRadius_pos _ h16
    · simpa using hph
    · simp
      exact scaleVelocity_nonneg _
  · refine ⟨?_, ?_, ?_⟩
    · simp [Moon]
      norm_num
    · simpa using hphn
    · simp
      exact scaleVelocity_nonneg _

/-- The non-root nodes of the built tree satisfy the invariant, provided
every phase draw lies in `[0, 2π)`. -/
theorem built_nonroot_invariant (rand : ℕ → ℝ)
    (hrand : ∀ i, rand i ∈ Set.Ico 0 (2 * Real.pi)) :
    ∀ c ∈ (generateSolarSystem Planets rand).1.children, ∀ q ∈ c.nodes,
      0 < q.orbitRadius ∧ q.phase ∈ Set.Ico 0 (2 * Real.pi) ∧ 0 ≤ q.orbitalRate := by
  intro c hc
  rw [children_generate] at hc
  simp [Planets, buildPlanets, attachMoonAt2] at hc
  rcases hc with rfl | rfl | rfl | rfl | rfl | rfl | rfl | rfl
  · exact leaf_node_invariant 0 _ rand (by norm_num) (hrand 0)
  · exact leaf_node_invariant 1 _ rand (by norm_num) (hrand 1)
  · exact host_node_invariant 2 8 _ rand (by norm_num) (hrand 2) (hrand 8)
  · exact leaf_node_invariant 3 _ rand (by norm_num) (hrand 3)
  · exact leaf_node_invariant 4 _ rand (by norm_num) (hrand 4)
  · exact leaf_node_invariant 5 _ rand (by norm_num) (hrand 5)
  · exact leaf_node_invariant 6 _ rand (by norm_num) (hrand 6)
  · exact leaf_node_invariant 7 _ rand (by norm_num) (hrand 7)

/-- C8 (amended): after construction with phase draws in `[0, 2π)` exactly
one node — the root — has `orbitRadius = 0` and every other node has
`orbitRadius > 0` and `phase ∈ [0, 2π)`; advancing by a non-negative time
preserves the orbit-radius part and keeps phases non-negative, but the
upper phase bound is not preserved (phases accumulate unwrapped, see the
counterexample). -/
theorem orbit_phase_invariant (rand : ℕ → ℝ) (dt : ℝ)
    (hrand : ∀ i, rand i ∈ Set.Ico 0 (2 * Real.pi)) (hdt : 0 ≤ dt) :
    (generateSolarSystem Planets rand).1.orbitRadius = 0 ∧
    (∀ c ∈ (generateSolarSystem Planets rand).1.children, ∀ q ∈ c.nodes,
        0 < q.orbitRadius ∧ q.phase ∈ Set.Ico 0 (2 * Real.pi)) ∧
    (Planet.updateCTM dt (generateSolarSystem Planets rand).1).orbitRadius = 0 ∧
    (∀ c ∈ (Planet.updateCTM dt (generateSolarSystem Planets rand).1).children,
        ∀ q ∈ c.nodes, 0 < q.orbitRadius ∧ 0 ≤ q.phase) := by
  have hroot : (generateSolarSystem Planets rand).1.orbitRadius = 0 := by
    simp [generateSolarSystem, Planet.new, Planet.setChildren]
  refine ⟨hroot, ?_, ?_, ?_⟩
  · intro c hc q hq
    obtain ⟨h1, h2, _⟩ := built_nonroot_invariant rand hrand c hc q hq
    exact ⟨h1, h2⟩
  · rw [updateCTM_orbitRadius, hroot]
  · intro c hc q hq
    rw [updateCTM_children] at hc
    obtain ⟨c0, hc0, rfl⟩ := List.mem_map.mp hc
    rw [nodes_updateCTM] at hq
    obtain ⟨q0, hq0, rfl⟩ := List.mem_map.mp hq
    obtain ⟨h1, h2, h3⟩ := built_nonroot_invariant rand hrand c0 hc0 q0 hq0
    refine ⟨by rwa [updateCTM_orbitRadius], ?_⟩
    rw [updateCTM_phase]
    have := h2.1
    have := mul_nonneg h3 hdt
    linarith

/-- Witness for C8 (amended) with all phase draws 0 and `dt = 100`. -/
theorem orbit_phase_invariant_witness :
    ((0:ℝ) ∈ Set.Ico 0 (2 * Real.pi) ∧ (0:ℝ) ≤ 100) ∧
    ((generateSolarSystem Planets fun _ => 0).1.orbitRadius = 0 ∧
     (∀ c ∈ (generateSolarSystem Planets fun _ => 0).1.children, ∀ q ∈ c.nodes,
         0 < q.orbitRadius ∧ q.phase ∈ Set.Ico 0 (2 * Real.pi)) ∧
     (Planet.updateCTM 100 (generateSolarSystem Planets fun _ => 0).1).orbitRadius = 0 ∧
     (∀ c ∈ (Planet.updateCTM 100 (generateSolarSystem Planets fun _ => 0).1).children,
         ∀ q ∈ c.nodes, 0 < q.orbitRadius ∧ 0 ≤ q.phase)) :=
  ⟨⟨⟨le_refl 0, by positivity⟩, by norm_num⟩,
   orbit_phase_invariant (fun _ => 0) 100
     (fun _ => ⟨le_refl 0, by positivity⟩) (by norm_num)⟩

/-- C8 (counterexample): phases are not kept inside `[0, 2π)` by advance.
With every phase drawn at 0 (a legitimate draw) the first planet's phase
after `advance(100)` is `0 + sqrt(1/88)·10·100 ≥ 2π`. -/
theorem phase_bound_counterexample :
    (0:ℝ) ∈ Set.Ico 0 (2 * Real.pi) ∧
    (((Planet.updateCTM 100 (generateSolarSystem Planets fun _ => 0).1).children)[0]?).map
        Planet.phase = some (0 + scaleVelocity (1 / 88) * 100) ∧
    ¬ (0 + scaleVelocity (1 / 88) * 100 < 2 * Real.pi) := by
  refine ⟨⟨le_refl 0, by positivity⟩, ?_, ?_⟩
  · rw [updateCTM_children, children_generate]
    simp [Planets, buildPlanets, attachMoonAt2, mkPlanetNode, Planet.new,
      updateCTM_phase]
  · rw [not_lt]
    have h1 : (1/10:ℝ) ≤ Real.sqrt (1/88) := by
      rw [show (1/10:ℝ) = Real.sqrt ((1/10)^2) by
            rw [Real.sqrt_sq]; norm_num]
      exact Real.sqrt_le_sqrt (by norm_num)
    have h2 : Real.pi ≤ 4 := Real.pi_le_four
    rw [scaleVelocity]
    nlinarith

/-! Render payloads. -/

/-- The payload list returned by the build, in creation order. -/
theorem data_generate (planets : List SolarSystemPlanet) (rand : ℕ → ℝ) :
    (generateSolarSystem planets rand).2 =
      mkShape 1 Sun.texture_fname ::
        ((planets.map fun pl => mkShape 0.5 pl.texture_fname) ++
          [mkShape 0.5 Moon.texture_fname]) := rfl

/-- The built root carries payload handle 0. -/
theorem shape_generate (planets : List SolarSystemPlanet) (rand : ℕ → ℝ) :
    (generateSolarSystem planets rand).1.shape = 0 := by
  simp [generateSolarSystem, Planet.new, Planet.setChildren]

/-- A node's pre-order list starts with the node, then its children forest. -/
theorem nodes_eq (t : Planet) : t.nodes = t :: nodesPL t.childrenPL := by
  cases t; rw [Planet.nodes]; rfl

/-- Membership in the planet loop's output characterized by catalog index. -/
theorem mem_buildPlanets (rand : ℕ → ℝ) :
    ∀ (l : List SolarSystemPlanet) (n : ℕ) (c : Planet), c ∈ buildPlanets rand n l →
      ∃ i pl, l[i]? = some pl ∧ c = mkPlanetNode (n + i) pl rand
  | [], _, c, hc => by simp [buildPlanets] at hc
  | pl :: rest, n, c, hc => by
      rw [buildPlanets] at hc
      rcases List.mem_cons.mp hc with rfl | hmem
      · exact ⟨0, pl, by simp⟩
      · obtain ⟨i, pl', hget, rfl⟩ := mem_buildPlanets rand rest (n+1) _ hmem
        exact ⟨i + 1, pl', by simpa using hget, by rw [Nat.add_assoc, Nat.add_comm 1 i]⟩

/-- A planet-loop node is a leaf: its subtree is itself. -/
theorem nodes_mkPlanetNode (i : ℕ) (pl : SolarSystemPlanet) (rand : ℕ → ℝ) :
    (mkPlanetNode i pl rand).nodes = [mkPlanetNode i pl rand] := by
  simp [mkPlanetNode, Planet.new, Planet.nodes, nodesPL]

/-- C7: the build returns the payloads ordered central body first, then the
orbiting bodies in catalog order, then the satellite last; every payload
is a sphere with identity initial transform; and every tree node's payload
handle refers into the returned list (the tree holds only handles, the
caller owns the payloads). -/
theorem payload_spec (planets : List SolarSystemPlanet) (rand : ℕ → ℝ)
    (hC : 3 ≤ planets.length) :
    (generateSolarSystem planets rand).2.length = planets.length + 2 ∧
    (generateSolarSystem planets rand).2.map (fun s => s.primitive.type)
      = List.replicate (planets.length + 2) PrimitiveType.PRIMITIVE_SPHERE ∧
    (generateSolarSystem planets rand).2.map (fun s => s.ctm)
      = List.replicate (planets.length + 2) (1 : M4) ∧
    (generateSolarSystem planets rand).2.map
        (fun s => s.primitive.material.textureMap.filename)
      = Sun.texture_fname ::
          (planets.map SolarSystemPlanet.texture_fname ++ [Moon.texture_fname]) ∧
    ∀ p ∈ (generateSolarSystem planets rand).1.nodes, p.shape < planets.length + 2 := by
  obtain ⟨a, b, c0, rest, rfl⟩ := exists_cons3 planets hC
  refine ⟨?_, ?_, ?_, ?_, ?_⟩
  · rw [data_generate]; simp
  · rw [data_generate, List.eq_replicate_iff]
    refine ⟨by simp, ?_⟩
    intro x hx
    obtain ⟨s, hs, rfl⟩ := List.mem_map.mp hx
    rcases List.mem_cons.mp hs with rfl | hs'
    · rfl
    · rcases List.mem_append.mp hs' with hs'' | hs''
      · obtain ⟨pl, _, rfl⟩ := List.mem_map.mp hs''
        rfl
      · rw [List.mem_singleton.mp hs'']
        rfl
  · rw [data_generate, List.eq_replicate_iff]
    refine ⟨by simp, ?_⟩
    intro x hx
    obtain ⟨s, hs, rfl⟩ := List.mem_map.mp hx
    rcases List.mem_cons.mp hs with rfl | hs'
    · rfl
    · rcases List.mem_append.mp hs' with hs'' | hs''
      · obtain ⟨pl, _, rfl⟩ := List.mem_map.mp hs''
        rfl
      · rw [List.mem_singleton.mp hs'']
        rfl
  · rw [data_generate]
    simp [mkShape, baseMaterial, List.map_map, Function.comp]
  · intro p hp
    rw [nodes_eq] at hp
    rcases List.mem_cons.mp hp with rfl | hp'
    · rw [shape_generate]; omega
    · rw [childrenPL_generate] at hp'
      obtain ⟨c, hcmem, hpin⟩ := (mem_nodesPL _ p).mp hp'
      rw [toList_ofList] at hcmem
      rw [show attachMoonAt2 (moonNode (a :: b :: c0 :: rest).length rand)
            (buildPlanets rand 0 (a :: b :: c0 :: rest)) =
          mkPlanetNode 0 a rand :: mkPlanetNode 1 b rand ::
          (mkPlanetNode 2 c0 rand).setChildren
            [moonNode (rest.length + 3) rand] ::
          buildPlanets rand 3 rest by simp [buildPlanets, attachMoonAt2]] at hcmem
      rcases List.mem_cons.mp hcmem with rfl | hcmem
      · rw [nodes_mkPlanetNode] at hpin
        rw [List.mem_singleton.mp hpin]
        simp [mkPlanetNode, Planet.new]
      · rcases List.mem_cons.mp hcmem with rfl | hcmem
        · rw [nodes_mkPlanetNode] at hpin
          rw [List.mem_singleton.mp hpin]
          simp [mkPlanetNode, Planet.new]
        · rcases List.mem_cons.mp hcmem with rfl | hcmem
          · simp [mkPlanetNode, moonNode, Planet.new, Planet.setChildren, Planet.nodes,
              nodesPL, PlanetList.toList, PlanetList.ofList] at hpin
            rcases hpin with rfl | rfl
            · simp
            · simp
          · obtain ⟨i, pl, hget, rfl⟩ := mem_buildPlanets rand rest 3 c hcmem
            have hi : i < rest.length := by
              by_contra hge
              rw [List.getElem?_eq_none (by omega)] at hget
              exact Option.noConfusion hget
            rw [nodes_mkPlanetNode] at hpin
            rw [List.mem_singleton.mp hpin]
            simp [mkPlanetNode, Planet.new]
            omega

/-- Witness for C7 on the real catalog. -/
theorem payload_spec_witness :
    3 ≤ Planets.length ∧
    ((generateSolarSystem Planets fun _ => 0).2.length = Planets.length + 2 ∧
     (generateSolarSystem Planets fun _ => 0).2.map (fun s => s.primitive.type)
       = List.replicate (Planets.length + 2) PrimitiveType.PRIMITIVE_SPHERE ∧
     (generateSolarSystem Planets fun _ => 0).2.map (fun s => s.ctm)
       = List.replicate (Planets.length + 2) (1 : M4) ∧
     (generateSolarSystem Planets fun _ => 0).2.map
         (fun s => s.primitive.material.textureMap.filename)
       = Sun.texture_fname ::
           (Planets.map SolarSystemPlanet.texture_fname ++ [Moon.texture_fname]) ∧
     ∀ p ∈ (generateSolarSystem Planets fun _ => 0).1.nodes,
       p.shape < Planets.length + 2) :=
  ⟨by simp [Planets], payload_spec Planets (fun _ => 0) (by simp [Planets])⟩

/-! Absence of catalog validation. -/

/-- C1 (failing behaviour): the build operation performs no validation.
On a catalog whose first record has `diameter = 0` it still constructs the
complete tree — five nodes for three records, all three children in place —
and the first child's scale is `scaleDiameter 0`, i.e. the image of a zero
diameter under `(log10 d − 3) × 0.5` (in C++ float arithmetic
`log10(0) = −∞`, a non-finite scale).  No configuration error exists in the
return type and nothing is rejected, contradicting the claim that a
malformed record prevents construction. -/
theorem no_validation_on_bad_diameter :
    (generateSolarSystem
        [{ texture_fname := "resources/images/mercury.jpeg", diameter := 0,
           rotational_velocity := 10.83, orbital_radius := 57.9,
           orbital_period := 88, orbital_inclination := 7.0 },
         { texture_fname := "resources/images/venus.jpeg", diameter := 12104,
           rotational_velocity := 6.52, orbital_radius := 108.2,
           orbital_period := 224.7, orbital_inclination := 3.4 },
         { texture_fname := "resources/images/earth.jpeg", diameter := 12756,
           rotational_velocity := 1574, orbital_radius := 149.6,
           orbital_period := 365.2, orbital_inclination := 0 }] fun _ => 0).1.size = 5 ∧
    (generateSolarSystem
        [{ texture_fname := "resources/images/mercury.jpeg", diameter := 0,
           rotational_velocity := 10.83, orbital_radius := 57.9,
           orbital_period := 88, orbital_inclination := 7.0 },
         { texture_fname := "resources/images/venus.jpeg", diameter := 12104,
           rotational_velocity := 6.52, orbital_radius := 108.2,
           orbital_period := 224.7, orbital_inclination := 3.4 },
         { texture_fname := "resources/images/earth.jpeg", diameter := 12756,
           rotational_velocity := 1574, orbital_radius := 149.6,
           orbital_period := 365.2, orbital_inclination := 0 }] fun _ => 0).1.children.length
      = 3 ∧
    ((generateSolarSystem
        [{ texture_fname := "resources/images/mercury.jpeg", diameter := 0,
           rotational_velocity := 10.83, orbital_radius := 57.9,
           orbital_period := 88, orbital_inclination := 7.0 },
         { texture_fname := "resources/images/venus.jpeg", diameter := 12104,
           rotational_velocity := 6.52, orbital_radius := 108.2,
           orbital_period := 224.7, orbital_inclination := 3.4 },
         { texture_fname := "resources/images/earth.jpeg", diameter := 12756,
           rotational_velocity := 1574, orbital_radius := 149.6,
           orbital_period := 365.2, orbital_inclination := 0 }] fun _ => 0).1.children)[0]?.map
        Planet.scale = some (scaleDiameter 0) := by
  refine ⟨?_, ?_, ?_⟩
  · rw [size_generate _ _ (by simp)]
    simp
  · rw [children_generate, attachMoonAt2_length, buildPlanets_length]
    simp
  · rw [children_generate]
    simp [buildPlanets, attachMoonAt2, mkPlanetNode, Planet.new]

end PlanetarySys
